import Mathlib

/-!
Verification of the Cinema-Seat-Book reservation engine.

The development shallowly embeds the two variants of the seat-reservation
engine found in the repository:

* `Cinema` models `database.py`: the SQLite-backed engine.  The three tables
  (`movies`, `seats`, `bookings`) are plain lists of rows, each SQL statement
  of the source becomes an explicit state transformation, and the `get_db`
  context manager (commit on success, rollback and re-raise on an exception)
  becomes the `runTx` wrapper over `Except`-valued transaction bodies.
* `LockServer` models `server.py`: the in-memory engine whose `book_seat`
  guards the check-and-set of one grid cell with `threading.Lock`.  It is a
  small-step transition system over two concurrently scheduled callers of
  `book_seat` on the same cell; the lock acquisition, the read of the cell,
  the conditional write and the release are separate machine steps.
* `DbBook` models two concurrent callers of `database.py`'s `book_seat`,
  which has no lock: each thread's autocommit SELECT of the seat status and
  its write transaction (UPDATE, INSERT, commit — serialized by SQLite's
  write lock) are separate machine steps over the committed database.

Timestamps (`booking_time DEFAULT CURRENT_TIMESTAMP`) are wall-clock input
from outside the program and none of the verified properties mentions them,
so the `bookings` rows carry every column except the timestamp.
-/

/-- Decidable equality for Except results, so that concrete transaction
outcomes can be settled by decide. -/
instance {ε α : Type} [DecidableEq ε] [DecidableEq α] : DecidableEq (Except ε α) := fun x y =>
  match x, y with
  | .ok u, .ok v => if h : u = v then isTrue (by rw [h]) else isFalse (by simp [h])
  | .error u, .error v => if h : u = v then isTrue (by rw [h]) else isFalse (by simp [h])
  | .ok _, .error _ => isFalse (by simp)
  | .error _, .ok _ => isFalse (by simp)

namespace Cinema

/-- Row of the movies table: id, title, genre, duration, showtime, poster_emoji. -/
structure Movie where
  id : Int
  title : String
  genre : String
  duration : String
  showtime : String
  poster_emoji : String
deriving DecidableEq, Repr

/-- Row of the seats table: PRIMARY KEY (movie_id, row, col), status 0 or 1. -/
structure SeatRow where
  movie_id : Int
  row : Int
  col : Int
  status : Int
deriving DecidableEq, Repr

/-- Row of the bookings table (without the wall-clock timestamp column). -/
structure Booking where
  id : Int
  movie_id : Int
  row : Int
  col : Int
  customer_name : String
  customer_email : String
  customer_phone : String
deriving DecidableEq, Repr

/-- The SQLite database: the three tables plus the AUTOINCREMENT counter that
feeds the synthetic id column of bookings. -/
structure DB where
  movies : List Movie
  seats : List SeatRow
  bookings : List Booking
  next_booking_id : Int
deriving DecidableEq, Repr

/-- WHERE movie_id = ? AND row = ? AND col = ? on the seats table. -/
def seatMatch (movie_id row col : Int) (s : SeatRow) : Bool :=
  s.movie_id == movie_id && s.row == row && s.col == col

/-- WHERE movie_id = ? AND row = ? AND col = ? on the bookings table. -/
def bookingMatch (movie_id row col : Int) (b : Booking) : Bool :=
  b.movie_id == movie_id && b.row == row && b.col == col

/-- SELECT status FROM seats WHERE movie_id = ? AND row = ? AND col = ?, then
fetchone.  The primary key keeps at most one matching row, so the first match
is the unique one. -/
def selectSeatStatus (db : DB) (movie_id row col : Int) : Option Int :=
  (db.seats.find? (seatMatch movie_id row col)).map (fun s => s.status)

/-- Effect of UPDATE seats SET status = ? WHERE movie_id = ? AND row = ? AND col = ?
on a single row. -/
def updSeat (movie_id row col v : Int) (s : SeatRow) : SeatRow :=
  if seatMatch movie_id row col s then { s with status := v } else s

/-- UPDATE seats SET status = ? WHERE movie_id = ? AND row = ? AND col = ?. -/
def updateSeatStatus (db : DB) (movie_id row col v : Int) : DB :=
  { db with seats := db.seats.map (updSeat movie_id row col v) }

/-- The bookings row created by INSERT INTO bookings (movie_id, row, col,
customer_name, customer_email, customer_phone) VALUES (?, ?, ?, ?, ?, ?):
the id column is filled from the AUTOINCREMENT counter. -/
def newBooking (db : DB) (movie_id row col : Int) (nm em ph : String) : Booking :=
  { id := db.next_booking_id, movie_id := movie_id, row := row, col := col,
    customer_name := nm, customer_email := em, customer_phone := ph }

/-- INSERT INTO bookings (movie_id, row, col, customer_name, customer_email,
customer_phone) VALUES (?, ?, ?, ?, ?, ?). -/
def insertBooking (db : DB) (movie_id row col : Int) (nm em ph : String) : DB :=
  { db with
    bookings := db.bookings ++ [newBooking db movie_id row col nm em ph],
    next_booking_id := db.next_booking_id + 1 }

/-- DELETE FROM bookings WHERE movie_id = ? AND row = ? AND col = ?. -/
def deleteBookings (db : DB) (movie_id row col : Int) : DB :=
  { db with bookings := db.bookings.filter (fun b => !(bookingMatch movie_id row col b)) }

/-- Fault injection for the atomicity analysis of section 7 of the spec: the
transaction body raises an unexpected exception just before its i-th SQL
statement when the fault oracle designates i. -/
def faultAt (fault : Option Nat) (i : Nat) : Bool :=
  fault == some i

/-- Body of the `with get_db()` block of database.book_seat: SELECT the status,
and when the row exists with status 0, UPDATE it to 1 and INSERT the booking
record; otherwise report failure without touching anything. -/
def bookTx (fault : Option Nat) (movie_id row col : Int) (nm em ph : String)
    (db : DB) : Except String (Bool × DB) :=
  if faultAt fault 0 then .error "unexpected failure" else
  if selectSeatStatus db movie_id row col = some 0 then
    if faultAt fault 1 then .error "unexpected failure" else
    let db1 := updateSeatStatus db movie_id row col 1
    if faultAt fault 2 then .error "unexpected failure" else
    .ok (true, insertBooking db1 movie_id row col nm em ph)
  else .ok (false, db)

/-- Body of the `with get_db()` block of database.cancel_booking: SELECT the
status, and when the row exists with status 1, UPDATE it to 0 and DELETE the
matching booking records; otherwise report failure without touching anything. -/
def cancelTx (fault : Option Nat) (movie_id row col : Int) (db : DB) :
    Except String (Bool × DB) :=
  if faultAt fault 0 then .error "unexpected failure" else
  if selectSeatStatus db movie_id row col = some 1 then
    if faultAt fault 1 then .error "unexpected failure" else
    let db1 := updateSeatStatus db movie_id row col 0
    if faultAt fault 2 then .error "unexpected failure" else
    .ok (true, deleteBookings db1 movie_id row col)
  else .ok (false, db)

/-- Columns of the seats table as created by init_database. -/
def seatsTableColumns : List String := ["movie_id", "row", "col", "status"]

/-- Body of the `with get_db()` block of database.reset_all_seats: the single
statement UPDATE seats SET status = 0, booked_at = NULL.  SQLite validates the
assigned column names against the schema, and the seats table has no
booked_at column, so the statement raises OperationalError.  Note also that
the function contains no DELETE FROM bookings statement. -/
def resetTx (db : DB) : Except String (Bool × DB) :=
  if seatsTableColumns.contains "status" && seatsTableColumns.contains "booked_at" then
    .ok (true, { db with seats := db.seats.map (fun s => { s with status := 0 }) })
  else
    .error "no such column: booked_at"

/-- Semantics of the get_db context manager: the transaction body runs against
the current database; on success its effects are committed, and on an
exception the connection rolls back (the committed database is unchanged) and
the exception is re-raised, so the caller observes no result value. -/
def runTx {α : Type} (tx : DB → Except String (α × DB)) (db : DB) : Option α × DB :=
  match tx db with
  | .ok (a, db2) => (some a, db2)
  | .error _ => (none, db)

/-- database.book_seat(movie_id, row, col, customer_name, customer_email,
customer_phone): bounds-validate first (returning False with no state touched),
then run the booking transaction.  The fault-free transaction body never
raises, so the error arm of the match is unreachable. -/
def book_seat (movie_id row col : Int) (nm em ph : String) (db : DB) : Bool × DB :=
  if 0 ≤ row ∧ row < 5 ∧ 0 ≤ col ∧ col < 5 then
    match bookTx none movie_id row col nm em ph db with
    | .ok res => res
    | .error _ => (false, db)
  else (false, db)

/-- database.cancel_booking(movie_id, row, col): bounds-validate first
(returning False with no state touched), then run the cancellation
transaction. -/
def cancel_booking (movie_id row col : Int) (db : DB) : Bool × DB :=
  if 0 ≤ row ∧ row < 5 ∧ 0 ≤ col ∧ col < 5 then
    match cancelTx none movie_id row col db with
    | .ok res => res
    | .error _ => (false, db)
  else (false, db)

/-- Result row of database.get_booking_details (without the timestamp column). -/
structure BookingDetails where
  id : Int
  movie_id : Int
  movie_title : String
  row : Int
  col : Int
  customer_name : String
  customer_email : String
  customer_phone : String
deriving DecidableEq, Repr

/-- database.get_booking_details(movie_id, row, col):
SELECT b.*, m.title FROM bookings b JOIN movies m ON b.movie_id = m.id
WHERE b.movie_id = ? AND b.row = ? AND b.col = ?, then fetchone.  The join
produces a row only when the referenced movie exists. -/
def get_booking_details (db : DB) (movie_id row col : Int) : Option BookingDetails :=
  (db.bookings.find? (bookingMatch movie_id row col)).bind fun b =>
    (db.movies.find? (fun m => m.id == b.movie_id)).map fun m =>
      { id := b.id, movie_id := b.movie_id, movie_title := m.title, row := b.row,
        col := b.col, customer_name := b.customer_name,
        customer_email := b.customer_email, customer_phone := b.customer_phone }

/-- Ordering used by ORDER BY row, col. -/
def rowColLE (a b : SeatRow) : Prop :=
  a.row < b.row ∨ (a.row = b.row ∧ a.col ≤ b.col)

instance : DecidableRel rowColLE := fun a b => by
  unfold rowColLE; infer_instance

/-- Python statement seat_map[row][col] = status on the 5 by 5 list of lists.
Indices are in range for every database reachable from init_database, which
creates seat rows only with 0 ≤ row, col < 5. -/
def setSeat (mat : List (List Int)) (row col status : Int) : List (List Int) :=
  if 0 ≤ row ∧ row < 5 ∧ 0 ≤ col ∧ col < 5 then
    mat.set row.toNat ((mat.getD row.toNat []).set col.toNat status)
  else mat

/-- database.get_seats_by_movie(movie_id):
SELECT row, col, status FROM seats WHERE movie_id = ? ORDER BY row, col, then
assign each fetched row into a zero-initialised 5 by 5 matrix. -/
def get_seats_by_movie (db : DB) (movie_id : Int) : List (List Int) :=
  let fetched := List.insertionSort rowColLE (db.seats.filter (fun s => s.movie_id == movie_id))
  fetched.foldl (fun mat s => setSeat mat s.row s.col s.status)
    (List.replicate 5 (List.replicate 5 0))

/-- Movies inserted by init_database on an empty database. -/
def initMovies : List Movie :=
  [{ id := 1, title := "The Matrix Reloaded", genre := "Sci-Fi Action",
     duration := "138 min", showtime := "19:00", poster_emoji := "🎭" },
   { id := 2, title := "Inception", genre := "Sci-Fi Thriller",
     duration := "148 min", showtime := "21:00", poster_emoji := "🌀" }]

/-- Seat rows inserted by init_database: for each movie id, for row in
range(5), for col in range(5), a row with status 0. -/
def initSeats : List SeatRow :=
  ([1, 2] : List Int).flatMap fun m =>
    (List.range 5).flatMap fun r =>
      (List.range 5).map fun c =>
        { movie_id := m, row := (r : Int), col := (c : Int), status := 0 }

/-- The database produced by init_database on an empty database: two movies,
two all-available 5 by 5 seat grids, no bookings. -/
def initDB : DB :=
  { movies := initMovies, seats := initSeats, bookings := [], next_booking_id := 1 }

/-- One mutating engine call, as dispatched by the facades: book_seat or
cancel_booking with its arguments. -/
inductive Op where
  | book (movie_id row col : Int) (nm em ph : String)
  | cancel (movie_id row col : Int)
deriving DecidableEq, Repr

/-- State reached after one mutating call (the returned boolean dropped). -/
def applyOp (db : DB) : Op → DB
  | .book m r c nm em ph => (book_seat m r c nm em ph db).2
  | .cancel m r c => (cancel_booking m r c db).2

/-- State reached after a sequence of mutating calls. -/
def applyOps (db : DB) (ops : List Op) : DB := ops.foldl applyOp db

/-- Number of bookings rows for one (movie_id, row, col) cell. -/
def bookingCount (db : DB) (movie_id row col : Int) : Nat :=
  (db.bookings.filter (bookingMatch movie_id row col)).length

/-- Database state after booking seat (0,0) of movie 1 on the fresh database
(used to exercise the cancellation paths on concrete inputs). -/
def dbAnn : DB := (book_seat 1 0 0 "Ann" "a@x.com" "555" initDB).2

/-- Database state after booking three distinct seats of movie 1 on the fresh
database: the reset scenario of the spec. -/
def db3 : DB :=
  (book_seat 1 2 2 "Cal" "c@x.com" "777"
    (book_seat 1 1 1 "Bob" "b@x.com" "666"
      (book_seat 1 0 0 "Ann" "a@x.com" "555" initDB).2).2).2

/-- Cell-level correspondence between the seats table and the bookings table:
a cell holds status 1 exactly when one bookings row exists for it, and any
other cell (status 0, or no seats row at all) has no bookings row. -/
def SeatRecordInv (db : DB) : Prop :=
  ∀ m r c : Int,
    bookingCount db m r c = if selectSeatStatus db m r c = some 1 then 1 else 0

/-- Entry (r, c) of a seat matrix represented as a list of rows, with the
same out-of-range default 0 used to initialise the matrix. -/
def matEntry (mat : List (List Int)) (r c : Nat) : Int :=
  (mat.getD r []).getD c 0

/-- Primary key of a seats row. -/
def seatKey (s : SeatRow) : Int × Int × Int :=
  (s.movie_id, s.row, s.col)

/-- Schema facts about the seats table that every database reachable from
init_database maintains: primary-key uniqueness, positions inside the 5 by 5
grid (init_database creates rows only for 0..4) and two-valued statuses. -/
def SeatsWellFormed (db : DB) : Prop :=
  db.seats.Pairwise (fun a b => seatKey a ≠ seatKey b) ∧
  (∀ s ∈ db.seats, 0 ≤ s.row ∧ s.row < 5 ∧ 0 ≤ s.col ∧ s.col < 5) ∧
  (∀ s ∈ db.seats, s.status = 0 ∨ s.status = 1)

end Cinema

namespace LockServer

/-- Program counter of one thread running server.CinemaBookingSystem.book_seat
on a fixed in-bounds cell, past the bounds check: acquire the lock, read the
cell, conditionally write it and compute the return value, release the lock,
done. -/
inductive PC where
  | acquire
  | readSeat
  | writeSeat
  | unlock
  | finished
deriving DecidableEq, Fintype, Repr

/-- One client thread: its program counter, the comparison it read from the
cell (sawAvailable is the value of seat_map[row][col] == 0), and the value
book_seat returned once it finished. -/
structure Thread where
  pc : PC
  sawAvailable : Bool
  res : Option Bool
deriving DecidableEq, Fintype, Repr

/-- Global state of two concurrent book_seat calls on the same cell: the
threading.Lock (none when free, otherwise the holder's id), the booked flag
of the contended cell (seat_map[row][col] == 1), and the two threads. -/
structure Sys where
  lock : Option Bool
  seatBooked : Bool
  t0 : Thread
  t1 : Thread
deriving DecidableEq, Fintype, Repr

def thread (s : Sys) (t : Bool) : Thread := if t then s.t1 else s.t0

def setThread (s : Sys) (t : Bool) (th : Thread) : Sys :=
  if t then { s with t1 := th } else { s with t0 := th }

/-- One atomic machine step of thread t: lock.acquire() succeeds only while
no thread holds the lock (otherwise the thread blocks, a stutter); the read
of seat_map[row][col], the conditional write of 1 with the computation of
the return value, and lock.release() are separate steps, so a schedule
represents an arbitrary interleaving of the two callers. -/
def step (s : Sys) (t : Bool) : Sys :=
  let th := thread s t
  match th.pc with
  | .acquire =>
      match s.lock with
      | none => setThread { s with lock := some t } t { th with pc := .readSeat }
      | some _ => s
  | .readSeat => setThread s t { th with sawAvailable := !s.seatBooked, pc := .writeSeat }
  | .writeSeat =>
      if th.sawAvailable then
        setThread { s with seatBooked := true } t { th with res := some true, pc := .unlock }
      else
        setThread s t { th with res := some false, pc := .unlock }
  | .unlock => setThread { s with lock := none } t { th with pc := .finished }
  | .finished => s

/-- Initial state of the race: the cell AVAILABLE, the lock free, both client
threads about to enter the critical section. -/
def init : Sys :=
  { lock := none, seatBooked := false,
    t0 := { pc := .acquire, sawAvailable := false, res := none },
    t1 := { pc := .acquire, sawAvailable := false, res := none } }

/-- State after executing a schedule: the sequence of thread ids picked by
the scheduler. -/
def run (sched : List Bool) : Sys := sched.foldl step init

/-- Thread t is inside the lock-protected critical section. -/
def inCrit (th : Thread) : Bool :=
  th.pc == PC.readSeat || th.pc == PC.writeSeat || th.pc == PC.unlock

/-- Inductive invariant of the locked check-and-set protocol: a thread inside
the critical section holds the lock; while a thread stands at the write step
its local read agrees with the cell; any returned result (success or
seat-taken failure) implies the cell is booked; the two threads never both
return success; a booked cell is accounted for by some success; a thread past
the write step carries a result and a thread before it none. -/
def inv (s : Sys) : Bool :=
  (!(inCrit s.t0) || s.lock == some false) &&
  (!(inCrit s.t1) || s.lock == some true) &&
  (!(s.t0.pc == PC.writeSeat) || s.t0.sawAvailable == !s.seatBooked) &&
  (!(s.t1.pc == PC.writeSeat) || s.t1.sawAvailable == !s.seatBooked) &&
  (!(s.t0.res == some true) || s.seatBooked) &&
  (!(s.t1.res == some true) || s.seatBooked) &&
  (!(s.t0.res == some false) || s.seatBooked) &&
  (!(s.t1.res == some false) || s.seatBooked) &&
  (!(s.t0.res == some true && s.t1.res == some true)) &&
  (!s.seatBooked || (s.t0.res == some true || s.t1.res == some true)) &&
  (!(s.t0.pc == PC.unlock || s.t0.pc == PC.finished) || !(s.t0.res == none)) &&
  (!(s.t1.pc == PC.unlock || s.t1.pc == PC.finished) || !(s.t1.res == none)) &&
  (!(s.t0.pc == PC.acquire || s.t0.pc == PC.readSeat || s.t0.pc == PC.writeSeat) ||
    s.t0.res == none) &&
  (!(s.t1.pc == PC.acquire || s.t1.pc == PC.readSeat || s.t1.pc == PC.writeSeat) ||
    s.t1.res == none)

end LockServer

namespace DbBook

/-- Arguments of one database.book_seat call. -/
structure BookArgs where
  movie_id : Int
  row : Int
  col : Int
  nm : String
  em : String
  ph : String
deriving DecidableEq, Repr

/-- Program counter of one thread running database.book_seat on an in-bounds
cell through its own thread-local connection (the bounds check precedes this
region and touches no shared state): the autocommit SELECT, the write
transaction, done. -/
inductive PC where
  | selStatus
  | write
  | finished
deriving DecidableEq, Repr

/-- One client thread: its program counter, the status its SELECT fetched,
and the value book_seat returned once it finished. -/
structure Thread where
  pc : PC
  sawStatus : Option Int
  res : Option Bool
deriving DecidableEq, Repr

/-- Global state of two concurrent database.book_seat calls: the committed
database and the two threads.  There is no lock. -/
structure RaceState where
  db : Cinema.DB
  t0 : Thread
  t1 : Thread
deriving DecidableEq, Repr

/-- One atomic step of thread t.  Python sqlite3's default deferred isolation
issues the implicit BEGIN only before the UPDATE, so the SELECT of the status
runs in autocommit mode against the committed database, outside any
transaction; the UPDATE, the INSERT and the commit form the write
transaction, which SQLite's write lock serializes (a concurrent writer
blocks until the commit), modelled as one atomic step applied to the
committed database.  Nothing orders a thread's SELECT with respect to the
other thread's write transaction.  As in the source, the write transaction
does not re-check the status: the UPDATE sets status = 1 wherever the key
matches and the INSERT appends a booking record unconditionally. -/
def step (a0 a1 : BookArgs) (s : RaceState) (t : Bool) : RaceState :=
  let a := if t then a1 else a0
  let th := if t then s.t1 else s.t0
  let put := fun (s2 : RaceState) (th2 : Thread) =>
    if t then { s2 with t1 := th2 } else { s2 with t0 := th2 }
  match th.pc with
  | .selStatus =>
      put s { th with
              sawStatus := Cinema.selectSeatStatus s.db a.movie_id a.row a.col,
              pc := .write }
  | .write =>
      if th.sawStatus = some 0 then
        put { s with
              db := Cinema.insertBooking
                (Cinema.updateSeatStatus s.db a.movie_id a.row a.col 1)
                a.movie_id a.row a.col a.nm a.em a.ph }
          { th with res := some true, pc := .finished }
      else
        put s { th with res := some false, pc := .finished }
  | .finished => s

/-- A thread about to issue its SELECT. -/
def initThread : Thread := { pc := .selStatus, sawStatus := none, res := none }

/-- State after executing a schedule of the two callers against a committed
database. -/
def run (a0 a1 : BookArgs) (db : Cinema.DB) (sched : List Bool) : RaceState :=
  sched.foldl (step a0 a1) { db := db, t0 := initThread, t1 := initThread }

/-- Ann's and Bob's concurrent book_seat calls on cell (0,0) of movie 1. -/
def annArgs : BookArgs :=
  { movie_id := 1, row := 0, col := 0, nm := "Ann", em := "a@x.com", ph := "555" }

def bobArgs : BookArgs :=
  { movie_id := 1, row := 0, col := 0, nm := "Bob", em := "b@x.com", ph := "666" }

end DbBook

namespace Cinema

/-! Basic facts about the embedded SQL statements. -/

lemma seatMatch_iff {m r c : Int} {s : SeatRow} :
    seatMatch m r c s = true ↔ (s.movie_id = m ∧ s.row = r ∧ s.col = c) := by
  simp [seatMatch, and_assoc]

lemma bookingMatch_iff {m r c : Int} {b : Booking} :
    bookingMatch m r c b = true ↔ (b.movie_id = m ∧ b.row = r ∧ b.col = c) := by
  simp [bookingMatch, and_assoc]

lemma seatMatch_updSeat (m r c v m2 r2 c2 : Int) (s : SeatRow) :
    seatMatch m2 r2 c2 (updSeat m r c v s) = seatMatch m2 r2 c2 s := by
  unfold updSeat
  split <;> rfl

lemma find?_seats_update (db : DB) (m r c v m2 r2 c2 : Int) :
    (updateSeatStatus db m r c v).seats.find? (seatMatch m2 r2 c2) =
      (db.seats.find? (seatMatch m2 r2 c2)).map (updSeat m r c v) := by
  show (db.seats.map (updSeat m r c v)).find? (seatMatch m2 r2 c2) = _
  rw [List.find?_map]
  have hp : (seatMatch m2 r2 c2 ∘ updSeat m r c v) = seatMatch m2 r2 c2 :=
    funext fun s => seatMatch_updSeat m r c v m2 r2 c2 s
  rw [hp]

lemma updSeat_status_of_match {m r c : Int} (v : Int) {s : SeatRow}
    (h : seatMatch m r c s = true) : (updSeat m r c v s).status = v := by
  unfold updSeat
  rw [if_pos h]

lemma updSeat_of_not_match {m r c : Int} (v : Int) {s : SeatRow}
    (h : ¬ seatMatch m r c s = true) : updSeat m r c v s = s := by
  unfold updSeat
  rw [if_neg h]

lemma selectSeatStatus_update_self {db : DB} {m r c : Int} (v : Int) {s0 : Int}
    (h : selectSeatStatus db m r c = some s0) :
    selectSeatStatus (updateSeatStatus db m r c v) m r c = some v := by
  unfold selectSeatStatus at h ⊢
  rw [find?_seats_update, Option.map_map]
  cases hf : db.seats.find? (seatMatch m r c) with
  | none => rw [hf] at h; simp at h
  | some s =>
      have hm := List.find?_some hf
      simp [Function.comp, updSeat_status_of_match v hm]

lemma selectSeatStatus_update_other (db : DB) {m r c m2 r2 c2 : Int} (v : Int)
    (h : ¬(m2 = m ∧ r2 = r ∧ c2 = c)) :
    selectSeatStatus (updateSeatStatus db m r c v) m2 r2 c2 =
      selectSeatStatus db m2 r2 c2 := by
  unfold selectSeatStatus
  rw [find?_seats_update, Option.map_map]
  cases hf : db.seats.find? (seatMatch m2 r2 c2) with
  | none => rfl
  | some s =>
      have hkey := seatMatch_iff.mp (List.find?_some hf)
      have hno : ¬ seatMatch m r c s = true := by
        rw [seatMatch_iff]
        rintro ⟨h1, h2, h3⟩
        exact h ⟨hkey.1.symm.trans h1, hkey.2.1.symm.trans h2, hkey.2.2.symm.trans h3⟩
      simp [Function.comp, updSeat_of_not_match v hno]

lemma selectSeatStatus_insertBooking (db : DB) (m r c m2 r2 c2 : Int)
    (nm em ph : String) :
    selectSeatStatus (insertBooking db m r c nm em ph) m2 r2 c2 =
      selectSeatStatus db m2 r2 c2 := rfl

lemma selectSeatStatus_deleteBookings (db : DB) (m r c m2 r2 c2 : Int) :
    selectSeatStatus (deleteBookings db m r c) m2 r2 c2 =
      selectSeatStatus db m2 r2 c2 := rfl

lemma bookings_updateSeatStatus (db : DB) (m r c v : Int) :
    (updateSeatStatus db m r c v).bookings = db.bookings := rfl

lemma movies_book_parts (db : DB) (m r c v : Int) (nm em ph : String) :
    (insertBooking (updateSeatStatus db m r c v) m r c nm em ph).movies = db.movies := rfl

/-- Unfolded form of book_seat: bounds check, then the committed effect of the
booking transaction. -/
lemma book_seat_eq (movie_id row col : Int) (nm em ph : String) (db : DB) :
    book_seat movie_id row col nm em ph db =
      if 0 ≤ row ∧ row < 5 ∧ 0 ≤ col ∧ col < 5 then
        if selectSeatStatus db movie_id row col = some 0 then
          (true,
            insertBooking (updateSeatStatus db movie_id row col 1) movie_id row col nm em ph)
        else (false, db)
      else (false, db) := by
  unfold book_seat bookTx
  by_cases hb : 0 ≤ row ∧ row < 5 ∧ 0 ≤ col ∧ col < 5
  · rw [if_pos hb, if_pos hb]
    by_cases hs : selectSeatStatus db movie_id row col = some 0
    · rw [if_pos hs, if_pos hs]; rfl
    · rw [if_neg hs, if_neg hs]; rfl
  · rw [if_neg hb, if_neg hb]

/-- Unfolded form of cancel_booking: bounds check, then the committed effect of
the cancellation transaction. -/
lemma cancel_booking_eq (movie_id row col : Int) (db : DB) :
    cancel_booking movie_id row col db =
      if 0 ≤ row ∧ row < 5 ∧ 0 ≤ col ∧ col < 5 then
        if selectSeatStatus db movie_id row col = some 1 then
          (true, deleteBookings (updateSeatStatus db movie_id row col 0) movie_id row col)
        else (false, db)
      else (false, db) := by
  unfold cancel_booking cancelTx
  by_cases hb : 0 ≤ row ∧ row < 5 ∧ 0 ≤ col ∧ col < 5
  · rw [if_pos hb, if_pos hb]
    by_cases hs : selectSeatStatus db movie_id row col = some 1
    · rw [if_pos hs, if_pos hs]; rfl
    · rw [if_neg hs, if_neg hs]; rfl
  · rw [if_neg hb, if_neg hb]

lemma bookingMatch_newBooking (db : DB) (m r c : Int) (nm em ph : String) :
    bookingMatch m r c (newBooking db m r c nm em ph) = true := by
  rw [bookingMatch_iff]
  exact ⟨rfl, rfl, rfl⟩

lemma bookingCount_insert (db : DB) (m r c m2 r2 c2 : Int) (nm em ph : String) :
    bookingCount (insertBooking db m r c nm em ph) m2 r2 c2 =
      bookingCount db m2 r2 c2 + (if m2 = m ∧ r2 = r ∧ c2 = c then 1 else 0) := by
  show ((db.bookings ++ [newBooking db m r c nm em ph]).filter _).length = _
  rw [List.filter_append, List.length_append]
  congr 1
  by_cases h : m2 = m ∧ r2 = r ∧ c2 = c
  · rw [if_pos h]
    rcases h with ⟨h1, h2, h3⟩
    subst h1; subst h2; subst h3
    simp [bookingMatch_newBooking]
  · rw [if_neg h]
    have hno : ¬ bookingMatch m2 r2 c2 (newBooking db m r c nm em ph) = true := by
      rw [bookingMatch_iff]
      rintro ⟨h1, h2, h3⟩
      exact h ⟨h1.symm, h2.symm, h3.symm⟩
    simp [hno]

lemma bookingCount_delete_self (db : DB) (m r c : Int) :
    bookingCount (deleteBookings db m r c) m r c = 0 := by
  show ((db.bookings.filter _).filter _).length = 0
  rw [List.filter_filter]
  simp

lemma bookingCount_delete_other (db : DB) {m r c m2 r2 c2 : Int}
    (h : ¬(m2 = m ∧ r2 = r ∧ c2 = c)) :
    bookingCount (deleteBookings db m r c) m2 r2 c2 = bookingCount db m2 r2 c2 := by
  show ((db.bookings.filter _).filter _).length = _
  rw [List.filter_filter]
  congr 1
  apply List.filter_congr
  intro b _
  by_cases hm : bookingMatch m2 r2 c2 b = true
  · have hkey := bookingMatch_iff.mp hm
    have hno : ¬ bookingMatch m r c b = true := by
      rw [bookingMatch_iff]
      rintro ⟨h1, h2, h3⟩
      exact h ⟨hkey.1.symm.trans h1, hkey.2.1.symm.trans h2, hkey.2.2.symm.trans h3⟩
    simp [hm, hno]
  · simp [hm]

lemma filter_movie_insertBooking (db : DB) {mA mB : Int} (r c : Int) (nm em ph : String)
    (h : mB ≠ mA) :
    (insertBooking db mA r c nm em ph).bookings.filter (fun b => b.movie_id == mB) =
      db.bookings.filter (fun b => b.movie_id == mB) := by
  show (db.bookings ++ [newBooking db mA r c nm em ph]).filter _ = _
  rw [List.filter_append]
  have hne : ((newBooking db mA r c nm em ph).movie_id == mB) = false := by
    simp only [newBooking, beq_eq_false_iff_ne, ne_eq]
    exact fun hx => h hx.symm
  simp [hne]

lemma filter_movie_deleteBookings (db : DB) {mA mB : Int} (r c : Int) (h : mB ≠ mA) :
    (deleteBookings db mA r c).bookings.filter (fun b => b.movie_id == mB) =
      db.bookings.filter (fun b => b.movie_id == mB) := by
  show (db.bookings.filter _).filter _ = _
  rw [List.filter_filter]
  apply List.filter_congr
  intro b _
  by_cases hm : b.movie_id = mB
  · have hno : ¬ bookingMatch mA r c b = true := by
      rw [bookingMatch_iff]
      rintro ⟨h1, _, _⟩
      exact h (hm.symm.trans h1)
    simp [hm, hno]
  · simp [hm]

/-! Preservation of the seats/bookings correspondence. -/

lemma seatRecordInv_initDB : SeatRecordInv initDB := by
  intro m r c
  have hz : ∀ s ∈ initDB.seats, s.status = 0 := by decide
  have hns : ¬ selectSeatStatus initDB m r c = some 1 := by
    unfold selectSeatStatus
    cases hf : initDB.seats.find? (seatMatch m r c) with
    | none => simp
    | some s =>
        have hs0 := hz s (List.mem_of_find?_eq_some hf)
        simp [hs0]
  rw [if_neg hns]
  rfl

lemma seatRecordInv_book (db : DB) (movie_id row col : Int) (nm em ph : String)
    (h : SeatRecordInv db) : SeatRecordInv (book_seat movie_id row col nm em ph db).2 := by
  rw [book_seat_eq]
  by_cases hb : 0 ≤ row ∧ row < 5 ∧ 0 ≤ col ∧ col < 5
  · rw [if_pos hb]
    by_cases hs : selectSeatStatus db movie_id row col = some 0
    · rw [if_pos hs]
      intro m r c
      by_cases hk : m = movie_id ∧ r = row ∧ c = col
      · obtain ⟨h1, h2, h3⟩ := hk
        subst h1; subst h2; subst h3
        have hc0 : bookingCount db m r c = 0 := by
          have hh := h m r c
          rw [if_neg (by rw [hs]; decide)] at hh
          exact hh
        have hsel2 : selectSeatStatus
            (insertBooking (updateSeatStatus db m r c 1) m r c nm em ph) m r c = some 1 := by
          rw [selectSeatStatus_insertBooking]
          exact selectSeatStatus_update_self 1 hs
        rw [if_pos hsel2, bookingCount_insert, if_pos ⟨rfl, rfl, rfl⟩]
        rw [show bookingCount (updateSeatStatus db m r c 1) m r c = bookingCount db m r c
          from rfl, hc0]
      · have hsel2 : selectSeatStatus
            (insertBooking (updateSeatStatus db movie_id row col 1) movie_id row col nm em ph)
              m r c = selectSeatStatus db m r c := by
          rw [selectSeatStatus_insertBooking]
          exact selectSeatStatus_update_other db 1 hk
        rw [hsel2, bookingCount_insert, if_neg hk]
        rw [show bookingCount (updateSeatStatus db movie_id row col 1) m r c =
          bookingCount db m r c from rfl, Nat.add_zero]
        exact h m r c
    · rw [if_neg hs]
      exact h
  · rw [if_neg hb]
    exact h

lemma seatRecordInv_cancel (db : DB) (movie_id row col : Int)
    (h : SeatRecordInv db) : SeatRecordInv (cancel_booking movie_id row col db).2 := by
  rw [cancel_booking_eq]
  by_cases hb : 0 ≤ row ∧ row < 5 ∧ 0 ≤ col ∧ col < 5
  · rw [if_pos hb]
    by_cases hs : selectSeatStatus db movie_id row col = some 1
    · rw [if_pos hs]
      intro m r c
      by_cases hk : m = movie_id ∧ r = row ∧ c = col
      · obtain ⟨h1, h2, h3⟩ := hk
        subst h1; subst h2; subst h3
        have hsel2 : selectSeatStatus
            (deleteBookings (updateSeatStatus db m r c 0) m r c) m r c = some 0 := by
          rw [selectSeatStatus_deleteBookings]
          exact selectSeatStatus_update_self 0 hs
        rw [hsel2, if_neg (by decide), bookingCount_delete_self]
      · have hsel2 : selectSeatStatus
            (deleteBookings (updateSeatStatus db movie_id row col 0) movie_id row col) m r c =
              selectSeatStatus db m r c := by
          rw [selectSeatStatus_deleteBookings]
          exact selectSeatStatus_update_other db 0 hk
        rw [hsel2, bookingCount_delete_other _ hk]
        rw [show bookingCount (updateSeatStatus db movie_id row col 0) m r c =
          bookingCount db m r c from rfl]
        exact h m r c
    · rw [if_neg hs]
      exact h
  · rw [if_neg hb]
    exact h

lemma seatRecordInv_applyOp (db : DB) (op : Op) (h : SeatRecordInv db) :
    SeatRecordInv (applyOp db op) := by
  cases op with
  | book m r c nm em ph => exact seatRecordInv_book db m r c nm em ph h
  | cancel m r c => exact seatRecordInv_cancel db m r c h

lemma seatRecordInv_applyOps (ops : List Op) (db : DB) (h : SeatRecordInv db) :
    SeatRecordInv (applyOps db ops) := by
  induction ops generalizing db with
  | nil => exact h
  | cons op rest ih => exact ih (applyOp db op) (seatRecordInv_applyOp db op h)

/-! Booking-details lookups after an insert and after a delete. -/

lemma find?_bookings_insert_of_none (db : DB) (m r c : Int) (nm em ph : String)
    (h : db.bookings.find? (bookingMatch m r c) = none) :
    (insertBooking db m r c nm em ph).bookings.find? (bookingMatch m r c) =
      some (newBooking db m r c nm em ph) := by
  show (db.bookings ++ [newBooking db m r c nm em ph]).find? (bookingMatch m r c) = _
  rw [List.find?_append, h]
  simp [bookingMatch_newBooking]

lemma get_booking_details_insert (db : DB) (m r c : Int) (nm em ph : String) (mv : Movie)
    (hmv : db.movies.find? (fun x => x.id == m) = some mv)
    (hnb : db.bookings.find? (bookingMatch m r c) = none) :
    get_booking_details (insertBooking db m r c nm em ph) m r c =
      some { id := db.next_booking_id, movie_id := m, movie_title := mv.title, row := r,
             col := c, customer_name := nm, customer_email := em,
             customer_phone := ph } := by
  unfold get_booking_details
  rw [find?_bookings_insert_of_none db m r c nm em ph hnb]
  simp [insertBooking, newBooking, hmv]

lemma get_booking_details_delete (db : DB) (m r c : Int) :
    get_booking_details (deleteBookings db m r c) m r c = none := by
  unfold get_booking_details
  have h : (deleteBookings db m r c).bookings.find? (bookingMatch m r c) = none := by
    rw [List.find?_eq_none]
    intro b hb hmatch
    have hmem := List.mem_filter.mp hb
    rw [hmatch] at hmem
    simp at hmem
  rw [h]
  rfl

/-- Rollback: a transaction body that raises leaves the committed database
unchanged. -/
lemma runTx_error {α : Type} (tx : DB → Except String (α × DB)) (db : DB) (err : String)
    (h : tx db = .error err) : runTx tx db = (none, db) := by
  unfold runTx
  rw [h]

/-! List facts used by the seat-matrix analysis. -/

lemma getD_set_ne {α : Type} (l : List α) (i j : Nat) (a d : α) (h : i ≠ j) :
    (l.set i a).getD j d = l.getD j d := by
  rw [List.getD_eq_getElem?_getD, List.getD_eq_getElem?_getD, List.getElem?_set, if_neg h]

lemma getD_set_self {α : Type} (l : List α) (i : Nat) (a d : α) (h : i < l.length) :
    (l.set i a).getD i d = a := by
  rw [List.getD_eq_getElem?_getD, List.getElem?_set, if_pos rfl, if_pos h]
  rfl

lemma find?_filter_comm {α : Type} (l : List α) (p q : α → Bool) :
    (l.filter q).find? p = l.find? (fun a => p a && q a) := by
  induction l with
  | nil => rfl
  | cons x T ih =>
      by_cases hq : q x = true
      · rw [List.filter_cons_of_pos hq]
        by_cases hp : p x = true
        · rw [List.find?_cons_of_pos _ hp, List.find?_cons_of_pos _ (by simp [hp, hq])]
        · rw [List.find?_cons_of_neg _ hp, List.find?_cons_of_neg _ (by simp [hp]), ih]
      · rw [List.filter_cons_of_neg hq, ih,
          List.find?_cons_of_neg _ (by simp [hq])]

lemma find?_perm_unique {α : Type} {l l2 : List α} (hp : l.Perm l2) (p : α → Bool)
    (hu : ∀ a ∈ l, ∀ b ∈ l, p a = true → p b = true → a = b) :
    l.find? p = l2.find? p := by
  cases h1 : l.find? p with
  | none =>
      cases h2 : l2.find? p with
      | none => rfl
      | some b =>
          have hb := List.mem_of_find?_eq_some h2
          exact absurd (List.find?_some h2)
            (List.find?_eq_none.mp h1 b (hp.mem_iff.mpr hb))
  | some a =>
      cases h2 : l2.find? p with
      | none =>
          have ha := List.mem_of_find?_eq_some h1
          exact absurd (List.find?_some h1)
            (List.find?_eq_none.mp h2 a (hp.mem_iff.mp ha))
      | some b =>
          have ha := List.mem_of_find?_eq_some h1
          have hb := List.mem_of_find?_eq_some h2
          rw [hu a ha b (hp.mem_iff.mpr hb) (List.find?_some h1) (List.find?_some h2)]

/-! Well-formedness of the seats table along every reachable state. -/

lemma seatKey_updSeat (m r c v : Int) (s : SeatRow) :
    seatKey (updSeat m r c v s) = seatKey s := by
  unfold updSeat
  split <;> rfl

lemma seatsWellFormed_update (db : DB) (m r c v : Int) (hv : v = 0 ∨ v = 1)
    (h : SeatsWellFormed db) : SeatsWellFormed (updateSeatStatus db m r c v) := by
  obtain ⟨h1, h2, h3⟩ := h
  refine ⟨?_, ?_, ?_⟩
  · show (db.seats.map _).Pairwise _
    rw [List.pairwise_map]
    exact h1.imp fun hab => by rw [seatKey_updSeat, seatKey_updSeat]; exact hab
  · intro s hs
    obtain ⟨t, ht, rfl⟩ := List.mem_map.mp hs
    have hb := h2 t ht
    unfold updSeat
    split
    · exact hb
    · exact hb
  · intro s hs
    obtain ⟨t, ht, rfl⟩ := List.mem_map.mp hs
    unfold updSeat
    split
    · exact hv
    · exact h3 t ht

lemma seatsWellFormed_initDB : SeatsWellFormed initDB := by
  refine ⟨by decide, by decide, by decide⟩

lemma seatsWellFormed_applyOp (db : DB) (op : Op) (h : SeatsWellFormed db) :
    SeatsWellFormed (applyOp db op) := by
  cases op with
  | book m r c nm em ph =>
      show SeatsWellFormed (book_seat m r c nm em ph db).2
      rw [book_seat_eq]
      by_cases hb : 0 ≤ r ∧ r < 5 ∧ 0 ≤ c ∧ c < 5
      · rw [if_pos hb]
        by_cases hs : selectSeatStatus db m r c = some 0
        · rw [if_pos hs]
          exact seatsWellFormed_update db m r c 1 (Or.inr rfl) h
        · rw [if_neg hs]
          exact h
      · rw [if_neg hb]
        exact h
  | cancel m r c =>
      show SeatsWellFormed (cancel_booking m r c db).2
      rw [cancel_booking_eq]
      by_cases hb : 0 ≤ r ∧ r < 5 ∧ 0 ≤ c ∧ c < 5
      · rw [if_pos hb]
        by_cases hs : selectSeatStatus db m r c = some 1
        · rw [if_pos hs]
          exact seatsWellFormed_update db m r c 0 (Or.inl rfl) h
        · rw [if_neg hs]
          exact h
      · rw [if_neg hb]
        exact h

lemma seatsWellFormed_applyOps (ops : List Op) (db : DB) (h : SeatsWellFormed db) :
    SeatsWellFormed (applyOps db ops) := by
  induction ops generalizing db with
  | nil => exact h
  | cons op rest ih => exact ih (applyOp db op) (seatsWellFormed_applyOp db op h)

/-! The matrix fold of get_seats_by_movie. -/

lemma matEntry_replicate (r c : Nat) (hr : r < 5) (hc : c < 5) :
    matEntry (List.replicate 5 (List.replicate 5 0)) r c = 0 := by
  interval_cases r <;> interval_cases c <;> rfl

lemma setSeat_shape {mat : List (List Int)} (hlen : mat.length = 5)
    (hrows : ∀ rowL ∈ mat, rowL.length = 5) (row col v : Int) :
    (setSeat mat row col v).length = 5 ∧
      ∀ rowL ∈ setSeat mat row col v, rowL.length = 5 := by
  unfold setSeat
  split
  · rename_i hcond
    refine ⟨by rw [List.length_set]; exact hlen, ?_⟩
    intro rowL hmem
    rcases List.mem_or_eq_of_mem_set hmem with hm | he
    · exact hrows _ hm
    · subst he
      rw [List.length_set]
      have hrn : row.toNat < mat.length := by omega
      have hget : mat.getD row.toNat [] = mat[row.toNat] := by
        rw [List.getD_eq_getElem?_getD, List.getElem?_eq_getElem hrn]
        rfl
      rw [hget]
      exact hrows _ (mat.getElem_mem hrn)
  · exact ⟨hlen, hrows⟩

lemma matEntry_setSeat_self {mat : List (List Int)} (hlen : mat.length = 5)
    (hrows : ∀ rowL ∈ mat, rowL.length = 5) {row col : Int} (v : Int)
    (hb : 0 ≤ row ∧ row < 5 ∧ 0 ≤ col ∧ col < 5) :
    matEntry (setSeat mat row col v) row.toNat col.toNat = v := by
  unfold setSeat matEntry
  rw [if_pos hb]
  have hrn : row.toNat < mat.length := by omega
  rw [getD_set_self _ _ _ _ hrn]
  have hget : mat.getD row.toNat [] = mat[row.toNat] := by
    rw [List.getD_eq_getElem?_getD, List.getElem?_eq_getElem hrn]
    rfl
  have hrowlen : (mat.getD row.toNat []).length = 5 := by
    rw [hget]
    exact hrows _ (mat.getElem_mem hrn)
  have hcn : col.toNat < (mat.getD row.toNat []).length := by omega
  rw [getD_set_self _ _ _ _ hcn]

lemma matEntry_setSeat_other {mat : List (List Int)} {row col : Int} (v : Int)
    (r c : Nat) (hne : ¬(row = (r : Int) ∧ col = (c : Int))) :
    matEntry (setSeat mat row col v) r c = matEntry mat r c := by
  unfold setSeat matEntry
  split
  · rename_i hcond
    by_cases hr2 : row.toNat = r
    · subst hr2
      have hc2 : col.toNat ≠ c := by omega
      by_cases hrn : row.toNat < mat.length
      · rw [getD_set_self _ _ _ _ hrn, getD_set_ne _ _ _ _ _ hc2]
      · rw [List.set_eq_of_length_le (by omega)]
    · rw [getD_set_ne _ _ _ _ _ hr2]
  · rfl

lemma matEntry_foldl (L : List SeatRow) (mat : List (List Int))
    (hlen : mat.length = 5) (hrows : ∀ rowL ∈ mat, rowL.length = 5)
    (hb : ∀ s ∈ L, 0 ≤ s.row ∧ s.row < 5 ∧ 0 ≤ s.col ∧ s.col < 5)
    (hu : L.Pairwise (fun a b => ¬(a.row = b.row ∧ a.col = b.col)))
    (r c : Nat) (hr : r < 5) (hc : c < 5) :
    matEntry (L.foldl (fun mat2 s => setSeat mat2 s.row s.col s.status) mat) r c =
      match L.find? (fun s => s.row == (r : Int) && s.col == (c : Int)) with
      | some s => s.status
      | none => matEntry mat r c := by
  induction L generalizing mat with
  | nil => rfl
  | cons s T ih =>
      have hshape := setSeat_shape hlen hrows s.row s.col s.status
      have hbT : ∀ t ∈ T, 0 ≤ t.row ∧ t.row < 5 ∧ 0 ≤ t.col ∧ t.col < 5 :=
        fun t ht => hb t (List.mem_cons_of_mem s ht)
      have hpc := List.pairwise_cons.mp hu
      by_cases hk : s.row = (r : Int) ∧ s.col = (c : Int)
      · have hfind : (s :: T).find? (fun t => t.row == (r : Int) && t.col == (c : Int)) =
            some s :=
          List.find?_cons_of_pos _ (by simp [hk.1, hk.2])
        rw [hfind]
        show matEntry (T.foldl _ (setSeat mat s.row s.col s.status)) r c = s.status
        rw [ih _ hshape.1 hshape.2 hbT hpc.2]
        have hTnone : T.find? (fun t => t.row == (r : Int) && t.col == (c : Int)) = none := by
          rw [List.find?_eq_none]
          intro t ht hmatch
          have hteq : t.row = (r : Int) ∧ t.col = (c : Int) := by
            simpa using hmatch
          exact hpc.1 t ht ⟨hk.1.trans hteq.1.symm, hk.2.trans hteq.2.symm⟩
        rw [hTnone]
        have hsb := hb s (List.mem_cons_self s T)
        have hrn : s.row.toNat = r := by omega
        have hcn : s.col.toNat = c := by omega
        rw [← hrn, ← hcn]
        exact matEntry_setSeat_self hlen hrows s.status hsb
      · have hfind : (s :: T).find? (fun t => t.row == (r : Int) && t.col == (c : Int)) =
            T.find? (fun t => t.row == (r : Int) && t.col == (c : Int)) :=
          List.find?_cons_of_neg _ (by simpa using hk)
        rw [hfind]
        show matEntry (T.foldl _ (setSeat mat s.row s.col s.status)) r c = _
        rw [ih _ hshape.1 hshape.2 hbT hpc.2]
        cases hT : T.find? (fun t => t.row == (r : Int) && t.col == (c : Int)) with
        | some t => rfl
        | none => exact matEntry_setSeat_other s.status r c hk

lemma foldl_setSeat_shape (L : List SeatRow) (mat : List (List Int))
    (hlen : mat.length = 5) (hrows : ∀ rowL ∈ mat, rowL.length = 5) :
    (L.foldl (fun mat2 s => setSeat mat2 s.row s.col s.status) mat).length = 5 ∧
      ∀ rowL ∈ L.foldl (fun mat2 s => setSeat mat2 s.row s.col s.status) mat,
        rowL.length = 5 := by
  induction L generalizing mat with
  | nil => exact ⟨hlen, hrows⟩
  | cons s T ih =>
      have hs := setSeat_shape hlen hrows s.row s.col s.status
      exact ih _ hs.1 hs.2

lemma eq_of_pairwise_not_and {L : List SeatRow}
    (hpw : L.Pairwise (fun a b => ¬(a.row = b.row ∧ a.col = b.col)))
    {a b : SeatRow} (ha : a ∈ L) (hb : b ∈ L)
    (hab : a.row = b.row ∧ a.col = b.col) : a = b := by
  induction L with
  | nil => cases ha
  | cons x T ih =>
      have hx := List.pairwise_cons.mp hpw
      rcases List.mem_cons.mp ha with rfl | haT
      · rcases List.mem_cons.mp hb with rfl | hbT
        · rfl
        · exact absurd hab (hx.1 b hbT)
      · rcases List.mem_cons.mp hb with rfl | hbT
        · exact absurd ⟨hab.1.symm, hab.2.symm⟩ (hx.1 a haT)
        · exact ih hx.2 haT hbT

/-- Entry (r, c) of the matrix returned by get_seats_by_movie is the status
column of the unique seats row for that cell, or 0 when no row exists. -/
lemma get_seats_by_movie_entry (db : DB) (m : Int) (hwf : SeatsWellFormed db)
    (r c : Nat) (hr : r < 5) (hc : c < 5) :
    matEntry (get_seats_by_movie db m) r c =
      ((db.seats.find? (seatMatch m r c)).map SeatRow.status).getD 0 := by
  obtain ⟨hpk, hbnd, _⟩ := hwf
  have hgoal : get_seats_by_movie db m =
      (List.insertionSort rowColLE (db.seats.filter fun s => s.movie_id == m)).foldl
        (fun mat s => setSeat mat s.row s.col s.status)
        (List.replicate 5 (List.replicate 5 0)) := rfl
  rw [hgoal]
  set flt := db.seats.filter (fun s => s.movie_id == m) with hflt
  have hperm : (List.insertionSort rowColLE flt).Perm flt := List.perm_insertionSort _ _
  have hmemflt : ∀ s ∈ flt, s ∈ db.seats := fun s hs => (List.mem_filter.mp hs).1
  have hbs : ∀ s ∈ List.insertionSort rowColLE flt,
      0 ≤ s.row ∧ s.row < 5 ∧ 0 ≤ s.col ∧ s.col < 5 :=
    fun s hs => hbnd s (hmemflt s (hperm.subset hs))
  have hprc : flt.Pairwise (fun a b => ¬(a.row = b.row ∧ a.col = b.col)) := by
    apply List.Pairwise.imp_of_mem ?_ (hpk.filter _)
    intro a b ha hb hk hab
    have hma : a.movie_id = m := by simpa using (List.mem_filter.mp ha).2
    have hmb : b.movie_id = m := by simpa using (List.mem_filter.mp hb).2
    exact hk (by simp [seatKey, hma, hmb, hab.1, hab.2])
  have hprc2 : (List.insertionSort rowColLE flt).Pairwise
      (fun a b => ¬(a.row = b.row ∧ a.col = b.col)) :=
    (hperm.pairwise_iff fun hxy hab => hxy ⟨hab.1.symm, hab.2.symm⟩).mpr hprc
  rw [matEntry_foldl (List.insertionSort rowColLE flt) (List.replicate 5 (List.replicate 5 0))
    rfl (by decide) hbs hprc2 r c hr hc]
  have huniq : ∀ a ∈ List.insertionSort rowColLE flt, ∀ b ∈ List.insertionSort rowColLE flt,
      (a.row == (r : Int) && a.col == (c : Int)) = true →
      (b.row == (r : Int) && b.col == (c : Int)) = true → a = b := by
    intro a ha b hb hpa hpb
    have ha2 : a.row = (r : Int) ∧ a.col = (c : Int) := by simpa using hpa
    have hb2 : b.row = (r : Int) ∧ b.col = (c : Int) := by simpa using hpb
    exact eq_of_pairwise_not_and hprc2 ha hb
      ⟨ha2.1.trans hb2.1.symm, ha2.2.trans hb2.2.symm⟩
  have hfinal : (List.insertionSort rowColLE flt).find?
      (fun s => s.row == (r : Int) && s.col == (c : Int)) =
      db.seats.find? (seatMatch m r c) := by
    rw [find?_perm_unique hperm _ huniq, hflt, find?_filter_comm]
    congr 1
    funext s
    show ((s.row == (r : Int) && s.col == (c : Int)) && (s.movie_id == m)) =
      seatMatch m r c s
    unfold seatMatch
    cases hm : s.movie_id == m <;> cases h1 : s.row == (r : Int) <;>
      cases h2 : s.col == (c : Int) <;> rfl
  rw [hfinal]
  cases hf : db.seats.find? (seatMatch m r c) with
  | some s => rfl
  | none => exact matEntry_replicate r c hr hc

lemma get_seats_by_movie_shape (db : DB) (m : Int) :
    (get_seats_by_movie db m).length = 5 ∧
      ∀ rowL ∈ get_seats_by_movie db m, rowL.length = 5 := by
  have hgoal : get_seats_by_movie db m =
      (List.insertionSort rowColLE (db.seats.filter fun s => s.movie_id == m)).foldl
        (fun mat s => setSeat mat s.row s.col s.status)
        (List.replicate 5 (List.replicate 5 0)) := rfl
  rw [hgoal]
  exact foldl_setSeat_shape _ _ rfl (by decide)

lemma get_seats_by_movie_unknown (db : DB) (m : Int)
    (h : ∀ s ∈ db.seats, s.movie_id ≠ m) :
    get_seats_by_movie db m = List.replicate 5 (List.replicate 5 0) := by
  have hf : db.seats.filter (fun s => s.movie_id == m) = [] := by
    rw [List.filter_eq_nil_iff]
    intro s hs
    simpa using h s hs
  show (List.insertionSort rowColLE (db.seats.filter fun s => s.movie_id == m)).foldl
      (fun mat s => setSeat mat s.row s.col s.status)
      (List.replicate 5 (List.replicate 5 0)) = _
  rw [hf]
  rfl

end Cinema

namespace Cinema

/-- C2: after any sequence of book and cancel calls starting from the freshly
initialised database, a cell is BOOKED exactly when one booking record exists
for that (showing, row, col) triple, and a cell that is not BOOKED has no
booking record: no state with a BOOKED cell lacking a record, or a non-BOOKED
cell holding one, is ever observable. -/
theorem c2_booked_iff_unique_record (ops : List Op) (m r c : Int) :
    (selectSeatStatus (applyOps initDB ops) m r c = some 1 ↔
      bookingCount (applyOps initDB ops) m r c = 1) ∧
    (¬ selectSeatStatus (applyOps initDB ops) m r c = some 1 →
      bookingCount (applyOps initDB ops) m r c = 0) := by
  have h := seatRecordInv_applyOps ops initDB seatRecordInv_initDB m r c
  refine ⟨⟨fun hs => ?_, fun hc => ?_⟩, fun hns => ?_⟩
  · rw [h, if_pos hs]
  · by_contra hns
    rw [h, if_neg hns] at hc
    exact absurd hc (by decide)
  · rw [h, if_neg hns]

/-- Witness for C2: after booking seat (0,0) of movie 1 the cell carries
exactly one record; on the fresh database it carries none. -/
theorem c2_booked_iff_unique_record_witness :
    bookingCount (applyOps initDB [Op.book 1 0 0 "Ann" "a@x.com" "555"]) 1 0 0 = 1 ∧
    bookingCount (applyOps initDB []) 1 0 0 = 0 :=
  ⟨(c2_booked_iff_unique_record [Op.book 1 0 0 "Ann" "a@x.com" "555"] 1 0 0).1.mp (by decide),
   (c2_booked_iff_unique_record [] 1 0 0).2 (by decide)⟩

/-- C4: a book or cancel call whose row or column lies outside the 5 by 5 grid
fails with the invalid-position result (a returned failure value, not an
exception) before touching any state: the seat grid and the booking records
are left completely unchanged. -/
theorem c4_out_of_bounds_rejected (db : DB) (movie_id row col : Int) (nm em ph : String)
    (h : row < 0 ∨ 5 ≤ row ∨ col < 0 ∨ 5 ≤ col) :
    book_seat movie_id row col nm em ph db = (false, db) ∧
    cancel_booking movie_id row col db = (false, db) := by
  have hb : ¬(0 ≤ row ∧ row < 5 ∧ 0 ≤ col ∧ col < 5) := by omega
  rw [book_seat_eq, cancel_booking_eq, if_neg hb, if_neg hb]
  exact ⟨rfl, rfl⟩

/-- Witness for C4: the concrete out-of-bounds calls of the spec scenario,
rows -1 and 5 on the fresh database. -/
theorem c4_out_of_bounds_rejected_witness :
    (book_seat 1 (-1) 0 "Ann" "a@x.com" "555" initDB = (false, initDB) ∧
      cancel_booking 1 (-1) 0 initDB = (false, initDB)) ∧
    (book_seat 1 5 0 "Ann" "a@x.com" "555" initDB = (false, initDB) ∧
      cancel_booking 1 5 0 initDB = (false, initDB)) :=
  ⟨c4_out_of_bounds_rejected initDB 1 (-1) 0 "Ann" "a@x.com" "555" (by decide),
   c4_out_of_bounds_rejected initDB 1 5 0 "Ann" "a@x.com" "555" (by decide)⟩

/-- C10: a book call naming a showing id that has no seat rows returns False
without creating any booking record and without modifying any table, even
though full customer data was supplied, and a cancel call likewise returns
False with no state change. -/
theorem c10_unknown_showing_rejected (db : DB) (movie_id row col : Int)
    (nm em ph : String) (hrow : 0 ≤ row ∧ row < 5) (hcol : 0 ≤ col ∧ col < 5)
    (h : ∀ s ∈ db.seats, s.movie_id ≠ movie_id) :
    book_seat movie_id row col nm em ph db = (false, db) ∧
    cancel_booking movie_id row col db = (false, db) := by
  have hb : 0 ≤ row ∧ row < 5 ∧ 0 ≤ col ∧ col < 5 := ⟨hrow.1, hrow.2, hcol.1, hcol.2⟩
  have hsel : selectSeatStatus db movie_id row col = none := by
    unfold selectSeatStatus
    rw [List.find?_eq_none.mpr]
    · rfl
    · intro s hs hmatch
      exact h s hs (seatMatch_iff.mp hmatch).1
  rw [book_seat_eq, cancel_booking_eq, if_pos hb, if_pos hb, hsel]
  exact ⟨by rw [if_neg (by decide)], by rw [if_neg (by decide)]⟩

/-- Witness for C10: movie id 99 exists in no seat row of the fresh database. -/
theorem c10_unknown_showing_rejected_witness :
    book_seat 99 0 0 "Ann" "a@x.com" "555" initDB = (false, initDB) ∧
    cancel_booking 99 0 0 initDB = (false, initDB) :=
  c10_unknown_showing_rejected initDB 99 0 0 "Ann" "a@x.com" "555" (by decide) (by decide)
    (by decide)

/-- C5: on an in-bounds cell that is AVAILABLE, booking succeeds and booking
again fails with the seat-taken result, leaving the state exactly as the
first call left it; on an in-bounds cell that is BOOKED, cancelling succeeds
and cancelling again fails with the not-booked result, likewise leaving the
state exactly as the first call left it. -/
theorem c5_repeated_book_and_cancel (db : DB) (movie_id row col : Int)
    (nm em ph nm2 em2 ph2 : String)
    (hrow : 0 ≤ row ∧ row < 5) (hcol : 0 ≤ col ∧ col < 5) :
    (selectSeatStatus db movie_id row col = some 0 →
      (book_seat movie_id row col nm em ph db).1 = true ∧
      book_seat movie_id row col nm2 em2 ph2 (book_seat movie_id row col nm em ph db).2 =
        (false, (book_seat movie_id row col nm em ph db).2)) ∧
    (selectSeatStatus db movie_id row col = some 1 →
      (cancel_booking movie_id row col db).1 = true ∧
      cancel_booking movie_id row col (cancel_booking movie_id row col db).2 =
        (false, (cancel_booking movie_id row col db).2)) := by
  have hb : 0 ≤ row ∧ row < 5 ∧ 0 ≤ col ∧ col < 5 := ⟨hrow.1, hrow.2, hcol.1, hcol.2⟩
  constructor
  · intro hs
    have h1 : book_seat movie_id row col nm em ph db =
        (true, insertBooking (updateSeatStatus db movie_id row col 1) movie_id row col
          nm em ph) := by
      rw [book_seat_eq, if_pos hb, if_pos hs]
    have hs2 : selectSeatStatus (book_seat movie_id row col nm em ph db).2
        movie_id row col = some 1 := by
      rw [h1]
      exact selectSeatStatus_update_self 1 hs
    refine ⟨by rw [h1], ?_⟩
    rw [book_seat_eq, if_pos hb, if_neg (by rw [hs2]; decide)]
  · intro hs
    have h1 : cancel_booking movie_id row col db =
        (true, deleteBookings (updateSeatStatus db movie_id row col 0) movie_id row col) := by
      rw [cancel_booking_eq, if_pos hb, if_pos hs]
    have hs2 : selectSeatStatus (cancel_booking movie_id row col db).2
        movie_id row col = some 0 := by
      rw [h1]
      exact selectSeatStatus_update_self 0 hs
    refine ⟨by rw [h1], ?_⟩
    rw [cancel_booking_eq, if_pos hb, if_neg (by rw [hs2]; decide)]

/-- Witness for C5: book (0,0) of movie 1 twice starting from the fresh
database, and cancel it twice starting from the state where Ann holds it. -/
theorem c5_repeated_book_and_cancel_witness :
    ((book_seat 1 0 0 "Ann" "a@x.com" "555" initDB).1 = true ∧
      book_seat 1 0 0 "Bob" "b@x.com" "666" (book_seat 1 0 0 "Ann" "a@x.com" "555" initDB).2 =
        (false, (book_seat 1 0 0 "Ann" "a@x.com" "555" initDB).2)) ∧
    ((cancel_booking 1 0 0 dbAnn).1 = true ∧
      cancel_booking 1 0 0 (cancel_booking 1 0 0 dbAnn).2 =
        (false, (cancel_booking 1 0 0 dbAnn).2)) :=
  ⟨(c5_repeated_book_and_cancel initDB 1 0 0 "Ann" "a@x.com" "555" "Bob" "b@x.com" "666"
      (by decide) (by decide)).1 (by decide),
   (c5_repeated_book_and_cancel dbAnn 1 0 0 "x" "x" "x" "x" "x" "x"
      (by decide) (by decide)).2 (by decide)⟩

/-- C7: a book or cancel call on showing A leaves every seat status and every
booking record of a different showing B unchanged: showings share no seat
state. -/
theorem c7_isolation_across_showings (db : DB) (mA mB row col r2 c2 : Int)
    (nm em ph : String) (h : mB ≠ mA) :
    selectSeatStatus (book_seat mA row col nm em ph db).2 mB r2 c2 =
        selectSeatStatus db mB r2 c2 ∧
    (book_seat mA row col nm em ph db).2.bookings.filter (fun b => b.movie_id == mB) =
        db.bookings.filter (fun b => b.movie_id == mB) ∧
    selectSeatStatus (cancel_booking mA row col db).2 mB r2 c2 =
        selectSeatStatus db mB r2 c2 ∧
    (cancel_booking mA row col db).2.bookings.filter (fun b => b.movie_id == mB) =
        db.bookings.filter (fun b => b.movie_id == mB) := by
  have hkey : ¬(mB = mA ∧ r2 = row ∧ c2 = col) := fun hx => h hx.1
  rw [book_seat_eq, cancel_booking_eq]
  by_cases hb : 0 ≤ row ∧ row < 5 ∧ 0 ≤ col ∧ col < 5
  · rw [if_pos hb, if_pos hb]
    refine ⟨?_, ?_, ?_, ?_⟩
    · by_cases hs : selectSeatStatus db mA row col = some 0
      · rw [if_pos hs]
        exact selectSeatStatus_update_other db 1 hkey
      · rw [if_neg hs]
    · by_cases hs : selectSeatStatus db mA row col = some 0
      · rw [if_pos hs]
        exact filter_movie_insertBooking (updateSeatStatus db mA row col 1) row col nm em ph h
      · rw [if_neg hs]
    · by_cases hs : selectSeatStatus db mA row col = some 1
      · rw [if_pos hs]
        exact selectSeatStatus_update_other db 0 hkey
      · rw [if_neg hs]
    · by_cases hs : selectSeatStatus db mA row col = some 1
      · rw [if_pos hs]
        exact filter_movie_deleteBookings (updateSeatStatus db mA row col 0) row col h
      · rw [if_neg hs]
  · rw [if_neg hb, if_neg hb]
    exact ⟨rfl, rfl, rfl, rfl⟩

/-- Witness for C7: booking and cancelling seat (0,0) of movie 1 leaves the
seat state and booking records of movie 2 untouched. -/
theorem c7_isolation_across_showings_witness :
    selectSeatStatus (book_seat 1 0 0 "Ann" "a@x.com" "555" initDB).2 2 0 0 =
        selectSeatStatus initDB 2 0 0 ∧
    (book_seat 1 0 0 "Ann" "a@x.com" "555" initDB).2.bookings.filter
        (fun b => b.movie_id == 2) = initDB.bookings.filter (fun b => b.movie_id == 2) ∧
    selectSeatStatus (cancel_booking 1 0 0 initDB).2 2 0 0 = selectSeatStatus initDB 2 0 0 ∧
    (cancel_booking 1 0 0 initDB).2.bookings.filter (fun b => b.movie_id == 2) =
        initDB.bookings.filter (fun b => b.movie_id == 2) :=
  c7_isolation_across_showings initDB 1 2 0 0 0 0 "Ann" "a@x.com" "555" (by decide)

/-- C3: the claim is what the spec intends, but reset_all_seats is broken.
Its single statement UPDATE seats SET status = 0, booked_at = NULL references
the non-existent booked_at column, so every call raises, the get_db
transaction rolls back and re-raises, and after booking three seats and
calling reset the seats stay BOOKED and the booking details of the
previously booked cell are still present.  Even as written, the statement
contains no DELETE FROM bookings, so it could never discard the records the
spec says it discards. -/
theorem c3_reset_is_broken :
    resetTx db3 = .error "no such column: booked_at" ∧
    runTx resetTx db3 = (none, db3) ∧
    selectSeatStatus db3 1 0 0 = some 1 ∧
    (get_booking_details db3 1 0 0).isSome = true := by
  refine ⟨by decide, ?_, by decide, by decide⟩
  exact runTx_error resetTx db3 "no such column: booked_at" (by decide)

/-- C6: booking an available in-bounds cell of an existing showing with
customer name, email and phone and then reading the booking details returns a
record with exactly those customer fields and that (row, col) (plus the
joined movie title and the fresh synthetic id); cancelling the cell and
reading the details again returns empty. -/
theorem c6_round_trip (db : DB) (movie_id row col : Int) (nm em ph : String) (mv : Movie)
    (hrow : 0 ≤ row ∧ row < 5) (hcol : 0 ≤ col ∧ col < 5)
    (hmv : db.movies.find? (fun x => x.id == movie_id) = some mv)
    (hst : selectSeatStatus db movie_id row col = some 0)
    (hnb : db.bookings.find? (bookingMatch movie_id row col) = none) :
    (book_seat movie_id row col nm em ph db).1 = true ∧
    get_booking_details (book_seat movie_id row col nm em ph db).2 movie_id row col =
      some { id := db.next_booking_id, movie_id := movie_id, movie_title := mv.title,
             row := row, col := col, customer_name := nm, customer_email := em,
             customer_phone := ph } ∧
    (cancel_booking movie_id row col (book_seat movie_id row col nm em ph db).2).1 = true ∧
    get_booking_details
      (cancel_booking movie_id row col (book_seat movie_id row col nm em ph db).2).2
      movie_id row col = none := by
  have hb : 0 ≤ row ∧ row < 5 ∧ 0 ≤ col ∧ col < 5 := ⟨hrow.1, hrow.2, hcol.1, hcol.2⟩
  have h1 : book_seat movie_id row col nm em ph db =
      (true, insertBooking (updateSeatStatus db movie_id row col 1) movie_id row col
        nm em ph) := by
    rw [book_seat_eq, if_pos hb, if_pos hst]
  have hs2 : selectSeatStatus (book_seat movie_id row col nm em ph db).2
      movie_id row col = some 1 := by
    rw [h1]
    exact selectSeatStatus_update_self 1 hst
  have h2 : cancel_booking movie_id row col (book_seat movie_id row col nm em ph db).2 =
      (true, deleteBookings
        (updateSeatStatus (book_seat movie_id row col nm em ph db).2 movie_id row col 0)
        movie_id row col) := by
    rw [cancel_booking_eq, if_pos hb, if_pos hs2]
  refine ⟨by rw [h1], ?_, by rw [h2], ?_⟩
  · rw [h1]
    exact get_booking_details_insert (updateSeatStatus db movie_id row col 1)
      movie_id row col nm em ph mv hmv hnb
  · rw [h2]
    exact get_booking_details_delete _ movie_id row col

/-- Witness for C6: the spec scenario, booking (0,0) of movie 1 as Ann on the
fresh database, reading the details, cancelling and reading again. -/
theorem c6_round_trip_witness :
    (book_seat 1 0 0 "Ann" "a@x.com" "555" initDB).1 = true ∧
    get_booking_details (book_seat 1 0 0 "Ann" "a@x.com" "555" initDB).2 1 0 0 =
      some { id := 1, movie_id := 1, movie_title := "The Matrix Reloaded", row := 0, col := 0,
             customer_name := "Ann", customer_email := "a@x.com",
             customer_phone := "555" } ∧
    (cancel_booking 1 0 0 (book_seat 1 0 0 "Ann" "a@x.com" "555" initDB).2).1 = true ∧
    get_booking_details
      (cancel_booking 1 0 0 (book_seat 1 0 0 "Ann" "a@x.com" "555" initDB).2).2 1 0 0 =
      none :=
  c6_round_trip initDB 1 0 0 "Ann" "a@x.com" "555"
    { id := 1, title := "The Matrix Reloaded", genre := "Sci-Fi Action",
      duration := "138 min", showtime := "19:00", poster_emoji := "🎭" }
    (by decide) (by decide) (by decide) (by decide) (by decide)

/-- C8: when the transaction body of a mutating operation (book, cancel or
reset) raises an unexpected failure partway through, the committed database
is exactly the one from before the call: the seat-status change and the
booking-record change are never applied partially, because every SQL
statement of the operation runs inside one get_db transaction, which rolls
back on an exception. -/
theorem c8_failure_rolls_back (db : DB) (fault : Option Nat) (movie_id row col : Int)
    (nm em ph : String) :
    ((∃ err, bookTx fault movie_id row col nm em ph db = .error err) →
      runTx (bookTx fault movie_id row col nm em ph) db = (none, db)) ∧
    ((∃ err, cancelTx fault movie_id row col db = .error err) →
      runTx (cancelTx fault movie_id row col) db = (none, db)) ∧
    ((∃ err, resetTx db = .error err) → runTx resetTx db = (none, db)) :=
  ⟨fun hx => runTx_error _ db hx.choose hx.choose_spec,
   fun hx => runTx_error _ db hx.choose hx.choose_spec,
   fun hx => runTx_error _ db hx.choose hx.choose_spec⟩

/-- Witness for C8: a fault injected after the seat UPDATE but before the
booking INSERT of a book on the available cell (0,0) errors the transaction
and the committed database is unchanged; reset always errors and likewise
changes nothing. -/
theorem c8_failure_rolls_back_witness :
    runTx (bookTx (some 2) 1 0 0 "Ann" "a@x.com" "555") initDB = (none, initDB) ∧
    runTx resetTx db3 = (none, db3) :=
  ⟨(c8_failure_rolls_back initDB (some 2) 1 0 0 "Ann" "a@x.com" "555").1
      ⟨"unexpected failure", by decide⟩,
   (c8_failure_rolls_back db3 none 1 0 0 "x" "x" "x").2.2
      ⟨"no such column: booked_at", by decide⟩⟩

/-- C9 counterexample: on the unknown showing id 99 getSeatGrid does not
yield an empty or error result: it returns the full 5 by 5 all-zeros seat
matrix, indistinguishable from the grid of a known showing with every seat
AVAILABLE. -/
theorem c9_unknown_id_counterexample :
    get_seats_by_movie initDB 99 = List.replicate 5 (List.replicate 5 0) ∧
    get_seats_by_movie initDB 99 ≠ [] ∧
    get_seats_by_movie initDB 99 = get_seats_by_movie initDB 1 := by
  refine ⟨by decide, by decide, by decide⟩

/-- C9 amended: on every database reachable from the initialised one,
getSeatGrid returns a 5 by 5 matrix whose entry (r, c) is 1 exactly when cell
(r, c) of the showing is BOOKED and 0 when it is AVAILABLE; an unknown
showing id yields the all-zeros 5 by 5 matrix (indistinguishable from a
fully available grid) rather than an empty or error result. -/
theorem c9_seat_grid_matrix (ops : List Op) (m : Int) :
    ((get_seats_by_movie (applyOps initDB ops) m).length = 5 ∧
      ∀ rowL ∈ get_seats_by_movie (applyOps initDB ops) m, rowL.length = 5) ∧
    (∀ r c : Nat, r < 5 → c < 5 →
      matEntry (get_seats_by_movie (applyOps initDB ops) m) r c =
        if selectSeatStatus (applyOps initDB ops) m r c = some 1 then 1 else 0) ∧
    ((∀ s ∈ (applyOps initDB ops).seats, s.movie_id ≠ m) →
      get_seats_by_movie (applyOps initDB ops) m =
        List.replicate 5 (List.replicate 5 0)) := by
  have hwf := seatsWellFormed_applyOps ops initDB seatsWellFormed_initDB
  refine ⟨get_seats_by_movie_shape _ m, ?_, get_seats_by_movie_unknown _ m⟩
  intro r c hr hc
  rw [get_seats_by_movie_entry _ m hwf r c hr hc]
  unfold selectSeatStatus
  cases hf : (applyOps initDB ops).seats.find? (seatMatch m r c) with
  | none => simp
  | some s =>
      rcases hwf.2.2 s (List.mem_of_find?_eq_some hf) with hs0 | hs1
      · simp [hs0]
      · simp [hs1]

/-- Witness for C9: after Ann books seat (0,0) of movie 1 the matrix entry
(0,0) reflects the BOOKED status, and an unknown showing id on the fresh
database yields the all-zeros matrix. -/
theorem c9_seat_grid_matrix_witness :
    matEntry (get_seats_by_movie (applyOps initDB [Op.book 1 0 0 "Ann" "a@x.com" "555"]) 1)
        0 0 =
      (if selectSeatStatus (applyOps initDB [Op.book 1 0 0 "Ann" "a@x.com" "555"]) 1 0 0 =
        some 1 then 1 else 0) ∧
    get_seats_by_movie (applyOps initDB []) 99 = List.replicate 5 (List.replicate 5 0) :=
  ⟨(c9_seat_grid_matrix [Op.book 1 0 0 "Ann" "a@x.com" "555"] 1).2.1 0 0
      (by decide) (by decide),
   (c9_seat_grid_matrix [] 99).2.2 (by decide)⟩

end Cinema

namespace LockServer

lemma inv_init : inv init = true := by decide

set_option maxHeartbeats 4000000 in
lemma inv_step : ∀ s : Sys, ∀ t : Bool, inv s = true → inv (step s t) = true := by
  intro s t
  obtain ⟨lock, seat, ⟨pc0, saw0, res0⟩, ⟨pc1, saw1, res1⟩⟩ := s
  cases pc0 <;> cases pc1 <;> revert lock seat saw0 res0 saw1 res1 t <;> decide

lemma inv_foldl (sched : List Bool) :
    ∀ s : Sys, inv s = true → inv (sched.foldl step s) = true := by
  induction sched with
  | nil => exact fun s hs => hs
  | cons t T ih => exact fun s hs => ih (step s t) (inv_step s t hs)

lemma inv_run (sched : List Bool) : inv (run sched) = true :=
  inv_foldl sched init inv_init

set_option maxHeartbeats 4000000 in
lemma inv_final : ∀ s : Sys, inv s = true →
    s.t0.pc = PC.finished → s.t1.pc = PC.finished →
    (s.t0.res = some true ∧ s.t1.res = some false) ∨
    (s.t0.res = some false ∧ s.t1.res = some true) := by
  intro s
  obtain ⟨lock, seat, ⟨pc0, saw0, res0⟩, ⟨pc1, saw1, res1⟩⟩ := s
  cases pc0 <;> cases pc1 <;> revert lock seat saw0 res0 saw1 res1 <;> decide

/-- Mutual exclusion of server.py's lock-guarded variant: for every
interleaving of two concurrent book_seat calls on the same cell that starts
AVAILABLE, once both calls have returned, exactly one of them obtained True
and the other False (the seat-taken failure).  Here the check of the current
status and the write of the new status execute inside the lock-protected
critical section, so no schedule can interleave the other caller between
them; proved over all schedules through the inductive invariant of the
protocol. -/
theorem locked_book_mutual_exclusion (sched : List Bool)
    (h0 : (run sched).t0.pc = PC.finished) (h1 : (run sched).t1.pc = PC.finished) :
    ((run sched).t0.res = some true ∧ (run sched).t1.res = some false) ∨
    ((run sched).t0.res = some false ∧ (run sched).t1.res = some true) :=
  inv_final (run sched) (inv_run sched) h0 h1

/-- Concrete instance of the lock-guarded result: the schedule that runs
thread 0 to completion and then thread 1; thread 0 wins the seat and thread 1
gets the seat-taken failure. -/
theorem locked_book_mutual_exclusion_serial :
    ((run [false, false, false, false, true, true, true, true]).t0.res = some true ∧
      (run [false, false, false, false, true, true, true, true]).t1.res = some false) ∨
    ((run [false, false, false, false, true, true, true, true]).t0.res = some false ∧
      (run [false, false, false, false, true, true, true, true]).t1.res = some true) :=
  locked_book_mutual_exclusion [false, false, false, false, true, true, true, true]
    (by decide) (by decide)

end LockServer

namespace DbBook

/-- C1: the claim fails on database.py's book_seat, one of its two sources.
That variant has no lock, and the SELECT of the current status runs in
autocommit mode outside the write transaction, so the check and the write
are not one indivisible step.  Under the schedule that lets both threads
SELECT the AVAILABLE cell (0,0) of movie 1 before either writes, both calls
return True and two booking records are committed for the one cell — the
claim says exactly one call may succeed and the other must fail with
SeatTaken.  Under the serial schedule the same model yields one success and
one seat-taken failure, so only the interleaving is to blame.  (server.py's
lock-guarded variant does satisfy the claim: locked_book_mutual_exclusion.) -/
theorem c1_db_book_double_books :
    (run annArgs bobArgs Cinema.initDB [false, true, false, true]).t0.res = some true ∧
    (run annArgs bobArgs Cinema.initDB [false, true, false, true]).t1.res = some true ∧
    Cinema.bookingCount (run annArgs bobArgs Cinema.initDB [false, true, false, true]).db
      1 0 0 = 2 ∧
    Cinema.selectSeatStatus (run annArgs bobArgs Cinema.initDB [false, true, false, true]).db
      1 0 0 = some 1 ∧
    (run annArgs bobArgs Cinema.initDB [false, false, true, true]).t0.res = some true ∧
    (run annArgs bobArgs Cinema.initDB [false, false, true, true]).t1.res = some false := by
  refine ⟨by decide, by decide, by decide, by decide, by decide, by decide⟩

end DbBook
